import Mathlib

/-!
# POS Printer Bridge — verification of the command-dispatch layer

Shallow embedding of `src/src/main.py`, `src/src/models.py` and
`src/src/customtypes.py` of the POS_Printer_Bridge repository.

The handlers (`print_text`, `print_barcode`, `print_image`, `cut_paper`)
are modelled as pure functions from a device model and a validated request
to an outcome (HTTP response or uncaught exception) together with the
trace of device calls issued.  The escpos device is an external
collaborator: it is modelled as an oracle `onCall` that, given the calls
already issued and the call being attempted, either accepts the call or
raises one of the library's exceptions.
-/

/-- `Alignments` enum from `src/src/customtypes.py` (a str-enum). -/
inductive Alignments
  | LEFT
  | CENTER
  | RIGHT
deriving DecidableEq, Repr

/-- The str-enum value of an `Alignments` member. -/
def Alignments.value : Alignments → String
  | .LEFT => "left"
  | .CENTER => "center"
  | .RIGHT => "right"

/-- `Positions` enum from `src/src/customtypes.py`. -/
inductive Positions
  | ABOVE
  | BELOW
  | BOTH
  | NONE
deriving DecidableEq, Repr

/-- `BarcodeTypes` enum from `src/src/customtypes.py`. -/
inductive BarcodeTypes
  | UPC_A
  | UPC_E
  | EAN13
  | EAN8
  | CODE39
  | ITF
  | NW7
deriving DecidableEq, Repr

/-- The str-enum value of a `BarcodeTypes` member. -/
def BarcodeTypes.value : BarcodeTypes → String
  | .UPC_A => "UPC-A"
  | .UPC_E => "UPC-E"
  | .EAN13 => "EAN13"
  | .EAN8 => "EAN8"
  | .CODE39 => "CODE39"
  | .ITF => "ITF"
  | .NW7 => "NW7"

/-- `ImplTypes` enum from `src/src/customtypes.py`. -/
inductive ImplTypes
  | bitImageRaster
  | graphics
  | bitImageColumn
deriving DecidableEq, Repr

/-- The str-enum value of an `ImplTypes` member. -/
def ImplTypes.value : ImplTypes → String
  | .bitImageRaster => "bitImageRaster"
  | .graphics => "graphics"
  | .bitImageColumn => "bitImageColumn"

/-- `Payload` model from `src/src/models.py` (print text or QR code).
Field defaults are the pydantic `Field(default=...)` values; the `ge`/`le`
constraints are the separate predicate `Payload.valid`. -/
structure Payload where
  content : String
  copies : Int := 1
  cut : Bool := true
  alignment : Alignments := .LEFT
  qr : Bool := false
  size : Int := 8
deriving DecidableEq, Repr

/-- The pydantic field constraints of `Payload`:
`copies: ge=1`, `size: ge=1, le=16`. -/
def Payload.valid (p : Payload) : Bool :=
  (1 ≤ p.copies) && (1 ≤ p.size) && (p.size ≤ 16)

/-- `Barcode` model from `src/src/models.py`. -/
structure Barcode where
  code : String
  type : BarcodeTypes
  height : Int := 64
  width : Int := 3
  position : Positions := .BELOW
  center : Bool := false
  copies : Int := 1
  cut : Bool := true
deriving DecidableEq, Repr

/-- The pydantic field constraints of `Barcode`:
`height: ge=1, le=255`, `width: ge=2, le=6`, `copies: ge=1`. -/
def Barcode.valid (b : Barcode) : Bool :=
  (1 ≤ b.height) && (b.height ≤ 255) && (2 ≤ b.width) && (b.width ≤ 6) && (1 ≤ b.copies)

/-- `ImageSettings` model from `src/src/models.py`. -/
structure ImageSettings where
  high_density_vertical : Bool := true
  high_density_horizontal : Bool := true
  impl : ImplTypes := .bitImageRaster
  center : Bool := false
  copies : Int := 1
  cut : Bool := true
deriving DecidableEq, Repr

/-- The pydantic field constraint of `ImageSettings`: `copies: ge=1`. -/
def ImageSettings.valid (s : ImageSettings) : Bool :=
  1 ≤ s.copies

/-- The `UploadFile` argument of the `/image/` endpoint: its declared
content type, whether a file object is present (the handler's `if not file`
guard), and whether `PIL.Image.open` on its bytes raises
(`decodeFailure = some msg` models `Image.open` raising with message `msg`). -/
structure UploadFile where
  present : Bool := true
  content_type : String
  decodeFailure : Option String := none
deriving DecidableEq, Repr

/-- One call against the escpos device handle `PRINTER`, as issued by the
handlers in `src/src/main.py`: `set(align=...)`, `text(...)`,
`qr(content, size=, center=)`, `barcode(code, type, height=, width=,
align_ct=)`, `image(..., high_density_vertical=, high_density_horizontal=,
impl=, center=)`, `cut()`. -/
inductive DevCall
  | setAlign (align : String)
  | text (s : String)
  | qr (content : String) (size : Int) (center : Bool)
  | barcode (code : String) (btype : String) (height : Int) (width : Int) (center : Bool)
  | image (hdv : Bool) (hdh : Bool) (impl : String) (center : Bool)
  | cut
deriving DecidableEq, Repr

abbrev Trace := List DevCall

/-- The exceptions of the escpos / PIL collaborators the handlers can meet:
`BarcodeCodeError`, `BarcodeSizeError`, `BarcodeTypeError`,
`ImageWidthError`, `ImageSizeError` (each carrying its `str(e)` message),
a PIL decoding failure, and any other device-level exception. -/
inductive DevErr
  | barcodeCodeError (msg : String)
  | barcodeSizeError (msg : String)
  | barcodeTypeError (msg : String)
  | imageWidthError (msg : String)
  | imageSizeError (msg : String)
  | decodeFailure (msg : String)
  | deviceError (msg : String)
deriving DecidableEq, Repr

/-- `str(e)` of a device exception. -/
def DevErr.message : DevErr → String
  | .barcodeCodeError m => m
  | .barcodeSizeError m => m
  | .barcodeTypeError m => m
  | .imageWidthError m => m
  | .imageSizeError m => m
  | .decodeFailure m => m
  | .deviceError m => m

/-- Whether an exception is one of the three caught by `print_barcode`
(`escpos.exceptions.BarcodeCodeError / BarcodeSizeError / BarcodeTypeError`). -/
def DevErr.isBarcodeError : DevErr → Bool
  | .barcodeCodeError _ => true
  | .barcodeSizeError _ => true
  | .barcodeTypeError _ => true
  | _ => false

/-- Whether an exception is one of the two caught by `print_image`
(`escpos.exceptions.ImageWidthError / ImageSizeError`). -/
def DevErr.isImageError : DevErr → Bool
  | .imageWidthError _ => true
  | .imageSizeError _ => true
  | _ => false

/-- The device model: `ready` is whether `PRINTER.is_online()` returns
without raising `NotImplementedError` (what `check_printer_initialized`
tests); `onCall` is the oracle deciding, from the calls already issued in
this request and the call being attempted, whether the call succeeds
(`none`) or raises an exception (`some e`). -/
structure Device where
  ready : Bool
  onCall : Trace → DevCall → Option DevErr

/-- A JSON response body of the API: `\x7bstatus: ...\x7d` on success,
`\x7berror: ...\x7d` on a handled error, or the framework's 422
validation-error body. -/
inductive Body
  | status (s : String)
  | error (e : String)
  | validationError
deriving DecidableEq, Repr

/-- Outcome of one request: an HTTP response (status code and JSON body),
or an exception that propagated uncaught out of the handler. -/
inductive Outcome
  | response (code : Nat) (body : Body)
  | uncaught (e : DevErr)
deriving DecidableEq, Repr

/-- Whether the handler let an exception escape. -/
def Outcome.isUncaught : Outcome → Bool
  | .uncaught _ => true
  | _ => false

/-- Attempt one device call: on success the call is appended to the trace,
on failure the exception is raised with the trace as already issued
(already-emitted output is not undone). -/
def attemptCall (d : Device) (tr : Trace) (c : DevCall) :
    Except (DevErr × Trace) Trace :=
  match d.onCall tr c with
  | none => .ok (tr ++ [c])
  | some e => .error (e, tr)

/-- The trace a loop run left behind, whether it finished or raised. -/
def resultTrace : Except (DevErr × Trace) Trace → Trace
  | .ok tr => tr
  | .error (_, tr) => tr

/-- The `for _ in range(copies)` loop shared by the three print handlers:
each iteration issues the same emission call and, when `cutAfter`, a
`cut()`; the first exception aborts the remaining iterations. -/
def copiesLoop (d : Device) (emit : DevCall) (cutAfter : Bool) :
    Nat → Trace → Except (DevErr × Trace) Trace
  | 0, tr => .ok tr
  | n + 1, tr =>
    match attemptCall d tr emit with
    | .error e => .error e
    | .ok tr2 =>
      match (if cutAfter then attemptCall d tr2 .cut else .ok tr2) with
      | .error e => .error e
      | .ok tr3 => copiesLoop d emit cutAfter n tr3

/-- `check_printer_initialized` from `src/src/main.py`: true iff
`PRINTER.is_online()` does not raise `NotImplementedError`. -/
def check_printer_initialized (d : Device) : Bool :=
  d.ready

/-- The emission one copy of a `Payload` issues: `text(content + "\n")`,
or `qr(content, size=size, center=(alignment == Alignments.CENTER))`. -/
def copyEmit (p : Payload) : DevCall :=
  if p.qr then
    .qr p.content p.size (decide (p.alignment = Alignments.CENTER))
  else
    .text (p.content ++ "\n")

/-- `print_text` from `src/src/main.py` (the `/print/` endpoint handler).
`envAlign` is the value of `os.getenv('PRINTER_ALIGNMENT', 'left')` used by
the alignment reset after the loop.  Returns the outcome and the trace of
device calls issued.  There is no try/except in this handler: any device
exception propagates as `Outcome.uncaught`. -/
def print_text (d : Device) (envAlign : String) (p : Payload) : Outcome × Trace :=
  if !check_printer_initialized d then
    (.response 400 (.error "Printer not initialized"), [])
  else
    match attemptCall d [] (.setAlign p.alignment.value) with
    | .error (e, tr) => (.uncaught e, tr)
    | .ok tr =>
      match copiesLoop d (copyEmit p) p.cut p.copies.toNat tr with
      | .error (e, tr2) => (.uncaught e, tr2)
      | .ok tr2 =>
        match attemptCall d tr2 (.setAlign envAlign) with
        | .error (e, tr3) => (.uncaught e, tr3)
        | .ok tr3 => (.response 200 (.status "Content Printed"), tr3)

/-- The barcode emission of one copy:
`barcode(code, type.value, height=height, width=width, align_ct=center)`.
The `position` field of the model is never passed to the device. -/
def barcodeCall (b : Barcode) : DevCall :=
  .barcode b.code b.type.value b.height b.width b.center

/-- `print_barcode` from `src/src/main.py` (the `/barcode/` endpoint
handler).  The whole copies loop sits in a `try` that catches exactly the
three barcode exception classes; anything else propagates uncaught. -/
def print_barcode (d : Device) (b : Barcode) : Outcome × Trace :=
  if !check_printer_initialized d then
    (.response 400 (.error "Printer not initialized"), [])
  else
    match copiesLoop d (barcodeCall b) b.cut b.copies.toNat [] with
    | .ok tr => (.response 200 (.status "Barcode Printed"), tr)
    | .error (e, tr) =>
      if e.isBarcodeError then
        (.response 400 (.error ("Barcode printing error: " ++ e.message)), tr)
      else
        (.uncaught e, tr)

/-- The image formats the `/image/` endpoint accepts, exactly the list in
`src/src/main.py`: `["image/png", "image/gif", "image/bmp", "image/jpg"]`. -/
def acceptedImageFormats : List String :=
  ["image/png", "image/gif", "image/bmp", "image/jpg"]

/-- The image emission of one copy: `image(image, high_density_vertical=,
high_density_horizontal=, impl=, center=)`. -/
def imageCall (s : ImageSettings) : DevCall :=
  .image s.high_density_vertical s.high_density_horizontal s.impl.value s.center

/-- `print_image` from `src/src/main.py` (the `/image/` endpoint handler).
The third component records whether `Image.open` was attempted.
`Image.open` sits outside the handler's `try`, so a decoding failure
propagates uncaught; the `try` around the loop catches exactly
`ImageWidthError` and `ImageSizeError`. -/
def print_image (d : Device) (file : UploadFile) (s : ImageSettings) :
    Outcome × Trace × Bool :=
  if !check_printer_initialized d then
    (.response 400 (.error "Printer not initialized"), [], false)
  else if !file.present then
    (.response 400 (.error "No image file provided"), [], false)
  else if !(acceptedImageFormats.contains file.content_type) then
    (.response 400
      (.error "Unsupported image format. Supported formats are PNG, JPG, BMP, GIF."),
      [], false)
  else
    match file.decodeFailure with
    | some m => (.uncaught (.decodeFailure m), [], true)
    | none =>
      match copiesLoop d (imageCall s) s.cut s.copies.toNat [] with
      | .ok tr => (.response 200 (.status "Image Printed"), tr, true)
      | .error (e, tr) =>
        if e.isImageError then
          (.response 400 (.error ("Image printing error: " ++ e.message)), tr, true)
        else
          (.uncaught e, tr, true)

/-- `cut_paper` from `src/src/main.py` (the `/cut/` endpoint handler).
No try/except: an exception from `cut()` propagates uncaught. -/
def cut_paper (d : Device) : Outcome × Trace :=
  if !check_printer_initialized d then
    (.response 400 (.error "Printer not initialized"), [])
  else
    match attemptCall d [] .cut with
    | .ok tr => (.response 200 (.status "Paper Cut"), tr)
    | .error (e, tr) => (.uncaught e, tr)

/-- FastAPI's request validation of the pydantic field constraints declared
in `src/src/models.py`, applied before the handler body runs: an invalid
payload is rejected with a 422 validation error and the handler (hence any
device call) is never reached. -/
def dispatch_print_text (d : Device) (envAlign : String) (p : Payload) :
    Outcome × Trace :=
  if p.valid then print_text d envAlign p
  else (.response 422 .validationError, [])

/-- FastAPI's request validation for the `/barcode/` endpoint (see
`dispatch_print_text`). -/
def dispatch_print_barcode (d : Device) (b : Barcode) : Outcome × Trace :=
  if b.valid then print_barcode d b
  else (.response 422 .validationError, [])

/-- FastAPI's request validation for the `/image/` endpoint (see
`dispatch_print_text`). -/
def dispatch_print_image (d : Device) (file : UploadFile) (s : ImageSettings) :
    Outcome × Trace × Bool :=
  if s.valid then print_image d file s
  else (.response 422 .validationError, [], false)

/-- The block of device calls one successful copy contributes. -/
def copyBlock (emit : DevCall) (cutAfter : Bool) : Trace :=
  emit :: (if cutAfter then [DevCall.cut] else [])

/-- Whether a call is a `set(align=...)`. -/
def DevCall.isSetAlign : DevCall → Bool
  | .setAlign _ => true
  | _ => false

/-- Whether a call is a `barcode(...)`. -/
def DevCall.isBarcode : DevCall → Bool
  | .barcode _ _ _ _ _ => true
  | _ => false

/-- The print emissions of a trace: everything but the `set(align=...)`
bookkeeping calls. -/
def deviceEmissions (tr : Trace) : Trace :=
  tr.filter (fun c => !c.isSetAlign)

/-- How many `barcode(...)` calls a trace holds. -/
def countBarcode (tr : Trace) : Nat :=
  (tr.filter DevCall.isBarcode).length

/-- The device's alignment state after a trace, starting from `a`: the
argument of the last `set(align=...)` call, if any. -/
def finalAlign (a : String) (tr : Trace) : String :=
  tr.foldl (fun acc c => match c with | .setAlign s => s | _ => acc) a

/-- Whether a `qr(...)` call's centering flag is exactly
`alignment == Alignments.CENTER` for the request `p` (non-QR calls pass). -/
def qrCenterOk (p : Payload) (c : DevCall) : Bool :=
  match c with
  | .qr _ _ ctr => ctr == decide (p.alignment = Alignments.CENTER)
  | _ => true

/-- A ready device whose calls all succeed. -/
def devReady : Device :=
  ⟨true, fun _ _ => none⟩

/-- A device whose liveness probe reports not-ready. -/
def devOffline : Device :=
  ⟨false, fun _ _ => none⟩

/-- A ready device whose `text(...)` calls raise a transport error. -/
def devTextFails : Device :=
  ⟨true, fun _ c => match c with
    | .text _ => some (.deviceError "connection reset")
    | _ => none⟩

/-- A ready device whose `cut()` calls raise a transport error. -/
def devCutFails : Device :=
  ⟨true, fun _ c => match c with
    | .cut => some (.deviceError "cutter jam")
    | _ => none⟩

/-- A ready device that accepts the first `barcode(...)` call and raises
`BarcodeSizeError` on the second. -/
def devBarcodeFailsAfterOne : Device :=
  ⟨true, fun tr c =>
    if c.isBarcode then
      (if 1 ≤ countBarcode tr then some (.barcodeSizeError "size out of range") else none)
    else none⟩

/-- A ready device whose `barcode(...)` calls raise an exception that is
not one of the three barcode exception classes. -/
def devBarcodeOther : Device :=
  ⟨true, fun _ c => if c.isBarcode then some (.deviceError "socket closed") else none⟩

/-- Scenario request: `content "Hello"`, `copies 2`, `cut true`. -/
def samplePayload : Payload :=
  { content := "Hello", copies := 2, cut := true, alignment := .LEFT, qr := false, size := 8 }

/-- A QR request with alignment `right`. -/
def sampleQrPayload : Payload :=
  { content := "https://example.com", copies := 1, cut := false,
    alignment := .RIGHT, qr := true, size := 4 }

/-- A one-copy centered text request. -/
def centerPayload : Payload :=
  { content := "Hello", copies := 1, cut := false, alignment := .CENTER, qr := false, size := 8 }

/-- A payload whose `copies` violates the `ge=1` constraint. -/
def invalidPayload : Payload :=
  { content := "x", copies := 0, cut := true, alignment := .LEFT, qr := false, size := 8 }

/-- Scenario request: EAN13 barcode, two copies, cut after each. -/
def sampleBarcode : Barcode :=
  { code := "123456789012", type := .EAN13, height := 64, width := 3,
    position := .BELOW, center := false, copies := 2, cut := true }

/-- A barcode whose `width` violates the `le=6` constraint. -/
def invalidBarcode : Barcode :=
  { code := "123456789012", type := .EAN13, height := 64, width := 7,
    position := .BELOW, center := false, copies := 1, cut := true }

/-- An upload declaring the TIFF content type. -/
def tiffFile : UploadFile :=
  { present := true, content_type := "image/tiff", decodeFailure := none }

/-- An upload declaring the standard JPEG MIME type `image/jpeg`. -/
def jpegFile : UploadFile :=
  { present := true, content_type := "image/jpeg", decodeFailure := none }

/-- A PNG-typed upload whose bytes `PIL.Image.open` cannot decode. -/
def badBytesFile : UploadFile :=
  { present := true, content_type := "image/png",
    decodeFailure := some "cannot identify image file" }

/-- Image settings with the model's defaults. -/
def sampleImageSettings : ImageSettings :=
  { high_density_vertical := true, high_density_horizontal := true,
    impl := .bitImageRaster, center := false, copies := 1, cut := true }

/-! ## Lemmas about the copies loop -/

/-- On a device whose calls all succeed, the copies loop appends exactly
`n` copy blocks to the trace. -/
theorem copiesLoop_ok (d : Device) (emit : DevCall) (cutAfter : Bool)
    (h : ∀ tr c, d.onCall tr c = none) (n : Nat) :
    ∀ tr : Trace,
      copiesLoop d emit cutAfter n tr =
        .ok (tr ++ (List.replicate n (copyBlock emit cutAfter)).flatten) := by
  induction n with
  | zero => intro tr; simp [copiesLoop]
  | succ n ih =>
    intro tr
    cases cutAfter with
    | false =>
      simp [copiesLoop, attemptCall, h, ih, copyBlock, List.replicate_succ,
        List.flatten_cons, List.append_assoc]
    | true =>
      simp [copiesLoop, attemptCall, h, ih, copyBlock, List.replicate_succ,
        List.flatten_cons, List.append_assoc]

/-- Whatever the device does, a run of the copies loop only ever appends
to the trace, and appends only the emission call and `cut()`. -/
theorem copiesLoop_suffix (d : Device) (emit : DevCall) (cutAfter : Bool) (n : Nat) :
    ∀ tr : Trace, ∃ s : Trace,
      resultTrace (copiesLoop d emit cutAfter n tr) = tr ++ s ∧
      ∀ c ∈ s, c = emit ∨ c = DevCall.cut := by
  induction n with
  | zero =>
    intro tr
    exact ⟨[], by simp [copiesLoop, resultTrace], by simp⟩
  | succ n ih =>
    intro tr
    cases h1 : d.onCall tr emit with
    | some e =>
      refine ⟨[], ?_, by simp⟩
      simp [copiesLoop, attemptCall, h1, resultTrace]
    | none =>
      cases cutAfter with
      | false =>
        obtain ⟨s, hs, hmem⟩ := ih (tr ++ [emit])
        refine ⟨emit :: s, ?_, ?_⟩
        · simp only [copiesLoop, attemptCall, h1]
          simpa [List.append_assoc] using hs
        · intro c hcm
          rcases List.mem_cons.mp hcm with h | h
          · exact Or.inl h
          · exact hmem c h
      | true =>
        cases h2 : d.onCall (tr ++ [emit]) DevCall.cut with
        | some e =>
          refine ⟨[emit], ?_, by simp⟩
          simp [copiesLoop, attemptCall, h1, h2, resultTrace]
        | none =>
          obtain ⟨s, hs, hmem⟩ := ih (tr ++ [emit] ++ [DevCall.cut])
          refine ⟨emit :: DevCall.cut :: s, ?_, ?_⟩
          · simp only [copiesLoop, attemptCall, h1, h2]
            simpa [List.append_assoc] using hs
          · intro c hcm
            rcases List.mem_cons.mp hcm with h | h
            · exact Or.inl h
            · rcases List.mem_cons.mp h with h' | h'
              · exact Or.inr h'
              · exact hmem c h'

theorem countBarcode_append (t1 t2 : Trace) :
    countBarcode (t1 ++ t2) = countBarcode t1 + countBarcode t2 := by
  simp [countBarcode, List.filter_append]

theorem countBarcode_block (b : Barcode) (cutAfter : Bool) :
    countBarcode (copyBlock (barcodeCall b) cutAfter) = 1 := by
  cases cutAfter <;>
    simp [countBarcode, copyBlock, barcodeCall, DevCall.isBarcode, List.filter]

theorem countBarcode_blocks (b : Barcode) (cutAfter : Bool) (j : Nat) :
    countBarcode ((List.replicate j (copyBlock (barcodeCall b) cutAfter)).flatten) = j := by
  induction j with
  | zero => simp [countBarcode]
  | succ j ih =>
    rw [List.replicate_succ, List.flatten_cons, countBarcode_append, ih,
      countBarcode_block]
    omega

/-- When the first `k` barcode calls succeed, the `(k+1)`-st raises `e`,
and cuts succeed, the copies loop run from `j ≤ k` completed copies stops
with exactly `k` completed copy blocks, no cut for the failed copy, and
nothing rolled back. -/
theorem copiesLoop_barcode_fail (d : Device) (b : Barcode) (e : DevErr) (k : Nat)
    (hnone : ∀ tr, countBarcode tr < k → d.onCall tr (barcodeCall b) = none)
    (hfail : ∀ tr, countBarcode tr = k → d.onCall tr (barcodeCall b) = some e)
    (hcut : ∀ tr, d.onCall tr DevCall.cut = none) :
    ∀ m j : Nat, j ≤ k → k < j + m →
      copiesLoop d (barcodeCall b) b.cut m
          ((List.replicate j (copyBlock (barcodeCall b) b.cut)).flatten) =
        .error (e, (List.replicate k (copyBlock (barcodeCall b) b.cut)).flatten) := by
  intro m
  induction m with
  | zero => intro j hj hk; omega
  | succ m ih =>
    intro j hj hk
    by_cases hjk : j = k
    · subst hjk
      have hf := hfail _ (countBarcode_blocks b b.cut j)
      simp [copiesLoop, attemptCall, hf]
    · have hlt : j < k := lt_of_le_of_ne hj hjk
      have ihx := ih (j + 1) (by omega) (by omega)
      cases hc : b.cut with
      | false =>
        have h1 := hnone ((List.replicate j (copyBlock (barcodeCall b) false)).flatten)
          (by rw [countBarcode_blocks]; exact hlt)
        rw [hc] at ihx
        have hstep : (List.replicate j (copyBlock (barcodeCall b) false)).flatten ++
              [barcodeCall b] =
            (List.replicate (j + 1) (copyBlock (barcodeCall b) false)).flatten := by
          rw [List.replicate_succ', List.flatten_append]
          simp [copyBlock]
        simp only [copiesLoop, attemptCall, h1, Bool.false_eq_true, if_false, hstep]
        exact ihx
      | true =>
        have h1 := hnone ((List.replicate j (copyBlock (barcodeCall b) true)).flatten)
          (by rw [countBarcode_blocks]; exact hlt)
        have h2 := hcut ((List.replicate j (copyBlock (barcodeCall b) true)).flatten
          ++ [barcodeCall b])
        rw [hc] at ihx
        have hstep : ((List.replicate j (copyBlock (barcodeCall b) true)).flatten ++
              [barcodeCall b]) ++ [DevCall.cut] =
            (List.replicate (j + 1) (copyBlock (barcodeCall b) true)).flatten := by
          rw [List.replicate_succ', List.flatten_append]
          simp [copyBlock]
        simp only [copiesLoop, attemptCall, h1, h2, if_true, hstep]
        exact ihx

theorem finalAlign_append (a : String) (t1 t2 : Trace) :
    finalAlign a (t1 ++ t2) = finalAlign (finalAlign a t1) t2 := by
  simp [finalAlign, List.foldl_append]

/-- A trace segment with no `set(align=...)` call leaves the alignment
state unchanged. -/
theorem finalAlign_no_set (a : String) (s : Trace)
    (h : ∀ c ∈ s, c.isSetAlign = false) : finalAlign a s = a := by
  induction s with
  | nil => rfl
  | cons c s ih =>
    have hc := h c (by simp)
    have hrest : ∀ c' ∈ s, c'.isSetAlign = false := fun c' hm => h c' (by simp [hm])
    cases c <;> simp [DevCall.isSetAlign] at hc ⊢ <;>
      simpa [finalAlign] using ih hrest

/-- The per-copy emission of a `Payload` is never a `set(align=...)`. -/
theorem copyEmit_not_setAlign (p : Payload) : (copyEmit p).isSetAlign = false := by
  cases hq : p.qr <;> simp [copyEmit, hq, DevCall.isSetAlign]

theorem isSetAlign_cut : DevCall.cut.isSetAlign = false := rfl

theorem isSetAlign_setAlign (a : String) : (DevCall.setAlign a).isSetAlign = true := rfl

/-- Filtering out the alignment bookkeeping leaves a copy block unchanged
when the emission is not a `set(align=...)`. -/
theorem filter_copyBlock (emit : DevCall) (cutAfter : Bool)
    (hemit : emit.isSetAlign = false) :
    (copyBlock emit cutAfter).filter (fun c => !c.isSetAlign) =
      copyBlock emit cutAfter := by
  cases cutAfter <;> simp [copyBlock, List.filter_cons, hemit, isSetAlign_cut]

theorem qrCenterOk_copyEmit (p : Payload) : qrCenterOk p (copyEmit p) = true := by
  cases hq : p.qr <;> simp [qrCenterOk, copyEmit, hq]

/-! ## The claims -/

/-- C1: for every valid TextOrQR request with `copies = n ≥ 1` handled
against a ready session (on a device that raises no exception), the
`/print/` handler returns `status: "Content Printed"` and its trace is the
request alignment set, then exactly `n` copy blocks — each the text
emission `content + "\n"` (or the QR emission when `qr`) followed by a
`cut()` exactly when cut-after-each is true, in strict alternating order —
then the alignment reset; filtering away the alignment bookkeeping leaves
exactly the `n` copy blocks. -/
theorem C1_print_text_copies (d : Device) (envAlign : String) (p : Payload) (n : Nat)
    (hready : d.ready = true) (hok : ∀ tr c, d.onCall tr c = none)
    (hn : p.copies = (n : Int)) (hpos : 1 ≤ n) :
    print_text d envAlign p =
      (.response 200 (.status "Content Printed"),
        .setAlign p.alignment.value ::
          ((List.replicate n (copyBlock (copyEmit p) p.cut)).flatten ++
            [.setAlign envAlign])) ∧
    deviceEmissions (print_text d envAlign p).2 =
      (List.replicate n (copyBlock (copyEmit p) p.cut)).flatten := by
  have hloop := copiesLoop_ok d (copyEmit p) p.cut hok p.copies.toNat
  have hmain : print_text d envAlign p =
      (.response 200 (.status "Content Printed"),
        .setAlign p.alignment.value ::
          ((List.replicate n (copyBlock (copyEmit p) p.cut)).flatten ++
            [.setAlign envAlign])) := by
    rw [hn, Int.toNat_natCast] at hloop
    simp [print_text, check_printer_initialized, hready, attemptCall, hok, hloop,
      hn, Int.toNat_natCast]
  refine ⟨hmain, ?_⟩
  rw [hmain]
  have hfb := filter_copyBlock (copyEmit p) p.cut (copyEmit_not_setAlign p)
  simp [deviceEmissions, isSetAlign_setAlign, hfb]

/-- C1 witness: the spec scenario `content "Hello"`, `copies 2`,
`cut true` against a ready, error-free device. -/
theorem C1_witness :
    print_text devReady "left" samplePayload =
      (.response 200 (.status "Content Printed"),
        [.setAlign "left", .text "Hello\n", .cut, .text "Hello\n", .cut,
          .setAlign "left"]) ∧
    deviceEmissions (print_text devReady "left" samplePayload).2 =
      [.text "Hello\n", .cut, .text "Hello\n", .cut] := by
  have h := C1_print_text_copies devReady "left" samplePayload 2 rfl
    (fun _ _ => rfl) rfl (by omega)
  simpa [samplePayload, copyBlock, copyEmit, Alignments.value,
    List.replicate, devReady] using h

/-- C4: when the Printer Session reports not-ready, every print-capable
endpoint (print text/QR, print barcode, print image, cut) returns HTTP 400
with body `error: "Printer not initialized"` and issues zero device calls. -/
theorem C4_not_ready_rejects (d : Device) (envAlign : String) (p : Payload)
    (b : Barcode) (f : UploadFile) (s : ImageSettings)
    (hready : d.ready = false) :
    print_text d envAlign p = (.response 400 (.error "Printer not initialized"), []) ∧
    print_barcode d b = (.response 400 (.error "Printer not initialized"), []) ∧
    print_image d f s = (.response 400 (.error "Printer not initialized"), [], false) ∧
    cut_paper d = (.response 400 (.error "Printer not initialized"), []) := by
  refine ⟨?_, ?_, ?_, ?_⟩ <;>
    simp [print_text, print_barcode, print_image, cut_paper,
      check_printer_initialized, hready]

/-- C4 witness: a not-ready device with the spec's sample requests. -/
theorem C4_witness :
    print_text devOffline "left" samplePayload =
      (.response 400 (.error "Printer not initialized"), []) ∧
    print_barcode devOffline sampleBarcode =
      (.response 400 (.error "Printer not initialized"), []) ∧
    print_image devOffline tiffFile sampleImageSettings =
      (.response 400 (.error "Printer not initialized"), [], false) ∧
    cut_paper devOffline =
      (.response 400 (.error "Printer not initialized"), []) :=
  C4_not_ready_rejects devOffline "left" samplePayload sampleBarcode tiffFile
    sampleImageSettings rfl

/-- C5: a request with `copies < 1`, or QR `size` outside `[1, 16]`, or
barcode `width` outside `[2, 6]`, or barcode `height` outside `[1, 255]`,
is rejected by validation with a structured validation error before the
handler runs; zero device calls are issued on validation failure. -/
theorem C5_validation_rejects (d : Device) (envAlign : String) :
    (∀ p : Payload, (p.copies < 1 ∨ p.size < 1 ∨ 16 < p.size) →
      dispatch_print_text d envAlign p = (.response 422 .validationError, [])) ∧
    (∀ b : Barcode,
      (b.copies < 1 ∨ b.width < 2 ∨ 6 < b.width ∨ b.height < 1 ∨ 255 < b.height) →
      dispatch_print_barcode d b = (.response 422 .validationError, [])) := by
  constructor
  · intro p h
    have hv : p.valid = false := by
      simp only [Payload.valid, Bool.and_eq_false_iff, decide_eq_false_iff_not]
      omega
    simp [dispatch_print_text, hv]
  · intro b h
    have hv : b.valid = false := by
      simp only [Barcode.valid, Bool.and_eq_false_iff, decide_eq_false_iff_not]
      omega
    simp [dispatch_print_barcode, hv]

/-- C5 witness: a payload with `copies = 0` and a barcode with
`width = 7` are both rejected with no device call. -/
theorem C5_witness :
    dispatch_print_text devReady "left" invalidPayload =
      (.response 422 .validationError, []) ∧
    dispatch_print_barcode devReady invalidBarcode =
      (.response 422 .validationError, []) :=
  ⟨(C5_validation_rejects devReady "left").1 invalidPayload (by left; decide),
    (C5_validation_rejects devReady "left").2 invalidBarcode (by right; right; left; decide)⟩

/-- C7: in every trace `print_text` produces, the centering flag of every
`qr(...)` call equals `alignment == Alignments.CENTER` — it is derived
solely from the request's alignment, so a request with `alignment = right`
and `qr = true` never centers the QR code. -/
theorem C7_qr_center_from_alignment (d : Device) (envAlign : String) (p : Payload) :
    ((print_text d envAlign p).2.all (qrCenterOk p)) = true := by
  rw [List.all_eq_true]
  intro c hc
  rcases hready : d.ready with _ | _
  · simp [print_text, check_printer_initialized, hready] at hc
  · obtain ⟨s, hs, hmem⟩ := copiesLoop_suffix d (copyEmit p) p.cut p.copies.toNat
      [DevCall.setAlign p.alignment.value]
    have hsuf : ∀ c' ∈ s, qrCenterOk p c' = true := by
      intro c' hmem'
      rcases hmem c' hmem' with h | h
      · rw [h]; exact qrCenterOk_copyEmit p
      · rw [h]; rfl
    rcases h0 : d.onCall [] (.setAlign p.alignment.value) with _ | e0
    · rcases hL : copiesLoop d (copyEmit p) p.cut p.copies.toNat
          [DevCall.setAlign p.alignment.value] with ⟨e1, tr1⟩ | tr1
      · rw [hL] at hs
        simp only [resultTrace] at hs
        simp [print_text, check_printer_initialized, hready, attemptCall, h0, hL] at hc
        rw [hs] at hc
        rcases List.mem_cons.mp hc with h | h
        · rw [h]; rfl
        · exact hsuf c h
      · rw [hL] at hs
        simp only [resultTrace] at hs
        rcases h2 : d.onCall tr1 (.setAlign envAlign) with _ | e2
        · simp [print_text, check_printer_initialized, hready, attemptCall, h0, hL, h2] at hc
          rcases hc with hc | hc
          · rw [hs] at hc
            rcases List.mem_cons.mp hc with h | h
            · rw [h]; rfl
            · exact hsuf c h
          · rw [hc]; rfl
        · simp [print_text, check_printer_initialized, hready, attemptCall, h0, hL, h2] at hc
          rw [hs] at hc
          rcases List.mem_cons.mp hc with h | h
          · rw [h]; rfl
          · exact hsuf c h
    · simp [print_text, check_printer_initialized, hready, attemptCall, h0] at hc

/-- C8: an image request against a ready session whose declared content
type is not in the accepted set is rejected with HTTP 400 and the message
`"Unsupported image format. Supported formats are PNG, JPG, BMP, GIF."`
(which begins "Unsupported image format" and names the accepted formats),
with no decoding attempted and zero device calls. -/
theorem C8_unsupported_format_rejected (d : Device) (f : UploadFile)
    (s : ImageSettings) (hready : d.ready = true) (hfile : f.present = true)
    (hct : acceptedImageFormats.contains f.content_type = false) :
    print_image d f s =
      (.response 400
        (.error "Unsupported image format. Supported formats are PNG, JPG, BMP, GIF."),
        [], false) := by
  have hmem : f.content_type ∉ acceptedImageFormats := by simpa using hct
  simp [print_image, check_printer_initialized, hready, hfile, hmem]

/-- C8 witness: the spec scenario `content_type = "image/tiff"`. -/
theorem C8_witness :
    print_image devReady tiffFile sampleImageSettings =
      (.response 400
        (.error "Unsupported image format. Supported formats are PNG, JPG, BMP, GIF."),
        [], false) :=
  C8_unsupported_format_rejected devReady tiffFile sampleImageSettings rfl rfl
    (by decide)

/-- C10: the accepted content-type set is exactly
`image/png, image/gif, image/bmp, image/jpg`; the standard JPEG MIME type
`image/jpeg` is not in it, so such an upload is rejected with the
"Unsupported image format" error (which names JPG among the supported
formats), against a ready session. -/
theorem C10_jpeg_rejected (d : Device) (f : UploadFile) (s : ImageSettings)
    (hready : d.ready = true) (hfile : f.present = true)
    (hct : f.content_type = "image/jpeg") :
    acceptedImageFormats = ["image/png", "image/gif", "image/bmp", "image/jpg"] ∧
    print_image d f s =
      (.response 400
        (.error "Unsupported image format. Supported formats are PNG, JPG, BMP, GIF."),
        [], false) := by
  refine ⟨rfl, ?_⟩
  have h : acceptedImageFormats.contains f.content_type = false := by
    rw [hct]; decide
  have hmem : f.content_type ∉ acceptedImageFormats := by simpa using h
  simp [print_image, check_printer_initialized, hready, hfile, hmem]

/-- C10 witness: an upload declaring `image/jpeg` against a ready device. -/
theorem C10_witness :
    acceptedImageFormats = ["image/png", "image/gif", "image/bmp", "image/jpg"] ∧
    print_image devReady jpegFile sampleImageSettings =
      (.response 400
        (.error "Unsupported image format. Supported formats are PNG, JPG, BMP, GIF."),
        [], false) :=
  C10_jpeg_rejected devReady jpegFile sampleImageSettings rfl rfl rfl

/-- C9: two barcode requests that differ only in the human-readable-text
`position` field produce exactly the same device-call sequence and the
same response — `position` is validated but never passed to the device's
barcode call, so it has no observable effect. -/
theorem C9_position_no_effect (d : Device) (b : Barcode) (p1 p2 : Positions) :
    dispatch_print_barcode d { b with position := p1 } =
      dispatch_print_barcode d { b with position := p2 } ∧
    print_barcode d { b with position := p1 } =
      print_barcode d { b with position := p2 } := by
  exact ⟨rfl, rfl⟩

/-- C6: for a barcode request against a ready session, when the device
accepts the first `k` barcode calls and raises a barcode encoding error
(code, size or type error) on copy `k + 1`, the handler stops the loop at
that copy — issuing no cut for the failed copy and no further copies —
returns HTTP 400 with body `error: "Barcode printing error: " ++ str(e)`,
and the `k` copies already emitted stay in the trace (no rollback). -/
theorem C6_barcode_error_stops_loop (d : Device) (b : Barcode) (e : DevErr) (k : Nat)
    (hready : d.ready = true) (hbar : e.isBarcodeError = true)
    (hk : k < b.copies.toNat)
    (hnone : ∀ tr, countBarcode tr < k → d.onCall tr (barcodeCall b) = none)
    (hfail : ∀ tr, countBarcode tr = k → d.onCall tr (barcodeCall b) = some e)
    (hcut : ∀ tr, d.onCall tr DevCall.cut = none) :
    print_barcode d b =
      (.response 400 (.error ("Barcode printing error: " ++ e.message)),
        (List.replicate k (copyBlock (barcodeCall b) b.cut)).flatten) := by
  have h := copiesLoop_barcode_fail d b e k hnone hfail hcut b.copies.toNat 0
    (by omega) (by omega)
  simp only [List.replicate, List.flatten_nil] at h
  simp [print_barcode, check_printer_initialized, hready, h, hbar]

/-- C6 witness: EAN13 barcode, two copies, the device raising
`BarcodeSizeError` on the second copy — the first copy (barcode and its
cut) stays emitted, no cut is issued for the failed copy, and the response
carries the device's message. -/
theorem C6_witness :
    print_barcode devBarcodeFailsAfterOne sampleBarcode =
      (.response 400 (.error "Barcode printing error: size out of range"),
        [barcodeCall sampleBarcode, DevCall.cut]) := by
  have h := C6_barcode_error_stops_loop devBarcodeFailsAfterOne sampleBarcode
    (.barcodeSizeError "size out of range") 1 rfl rfl (by decide)
    (fun tr hlt => by
      have hnot : ¬ 1 ≤ countBarcode tr := by omega
      simp [devBarcodeFailsAfterOne, barcodeCall, DevCall.isBarcode, hnot])
    (fun tr heq => by
      simp [devBarcodeFailsAfterOne, barcodeCall, DevCall.isBarcode, heq])
    (fun tr => rfl)
  simpa [sampleBarcode, copyBlock, barcodeCall, List.replicate] using h

/-- C2 counterexample: a centered one-copy request on a device whose
`text(...)` call raises.  `print_text` has no try/except, so the exception
propagates and the alignment reset after the loop is skipped: the device
alignment stays the request's `"center"`, not the process default
`"left"` — refuting the claim that the reset happens unconditionally on
request completion. -/
theorem C2_counterexample :
    (print_text devTextFails "left" centerPayload).1 =
      .uncaught (.deviceError "connection reset") ∧
    finalAlign "left" (print_text devTextFails "left" centerPayload).2 = "center" ∧
    finalAlign "left" (print_text devTextFails "left" centerPayload).2 ≠ "left" := by
  refine ⟨rfl, rfl, by decide⟩

/-- C2 (amended): the alignment reset happens only on success.  When a
`TextOrQR` request returns the success body, the device alignment equals
the process default `envAlign`; but when a device call raises after the
initial alignment set, the exception propagates uncaught and no reset
occurs — the device alignment remains the request's alignment. -/
theorem C2_amended_alignment_reset :
    (∀ (d : Device) (envAlign : String) (p : Payload) (tr : Trace) (a0 : String),
      print_text d envAlign p = (.response 200 (.status "Content Printed"), tr) →
      finalAlign a0 tr = envAlign) ∧
    (∀ (d : Device) (envAlign : String) (p : Payload) (e : DevErr) (tr : Trace)
        (a0 : String),
      d.onCall [] (.setAlign p.alignment.value) = none →
      print_text d envAlign p = (.uncaught e, tr) →
      finalAlign a0 tr = p.alignment.value) := by
  constructor
  · intro d envAlign p tr a0 h
    cases hready : d.ready with
    | false => simp [print_text, check_printer_initialized, hready] at h
    | true =>
      rcases h0 : d.onCall [] (.setAlign p.alignment.value) with _ | e0
      · rcases hL : copiesLoop d (copyEmit p) p.cut p.copies.toNat
            [DevCall.setAlign p.alignment.value] with ⟨e1, tr1⟩ | tr1
        · simp [print_text, check_printer_initialized, hready, attemptCall, h0, hL] at h
        · rcases h2 : d.onCall tr1 (.setAlign envAlign) with _ | e2
          · simp [print_text, check_printer_initialized, hready, attemptCall,
              h0, hL, h2] at h
            rw [← h, finalAlign_append]
            rfl
          · simp [print_text, check_printer_initialized, hready, attemptCall,
              h0, hL, h2] at h
      · simp [print_text, check_printer_initialized, hready, attemptCall, h0] at h
  · intro d envAlign p e tr a0 h0 h
    cases hready : d.ready with
    | false => simp [print_text, check_printer_initialized, hready] at h
    | true =>
      obtain ⟨s, hs, hmem⟩ := copiesLoop_suffix d (copyEmit p) p.cut p.copies.toNat
        [DevCall.setAlign p.alignment.value]
      have hnoset : ∀ c ∈ s, c.isSetAlign = false := by
        intro c hcm
        rcases hmem c hcm with h' | h'
        · rw [h']; exact copyEmit_not_setAlign p
        · rw [h']; rfl
      rcases hL : copiesLoop d (copyEmit p) p.cut p.copies.toNat
          [DevCall.setAlign p.alignment.value] with ⟨e1, tr1⟩ | tr1
      · rw [hL] at hs
        simp only [resultTrace] at hs
        simp [print_text, check_printer_initialized, hready, attemptCall, h0, hL] at h
        rw [← h.2, hs, finalAlign_append, finalAlign_no_set _ s hnoset]
        rfl
      · rw [hL] at hs
        simp only [resultTrace] at hs
        rcases h2 : d.onCall tr1 (.setAlign envAlign) with _ | e2
        · simp [print_text, check_printer_initialized, hready, attemptCall,
            h0, hL, h2] at h
        · simp [print_text, check_printer_initialized, hready, attemptCall,
            h0, hL, h2] at h
          rw [← h.2, hs, finalAlign_append, finalAlign_no_set _ s hnoset]
          rfl

/-- C2 witness: the success branch at the spec scenario (two copies,
device error-free) ends aligned to the default `"left"`; the
error branch at the counterexample request ends aligned to the request's
`"center"`. -/
theorem C2_witness :
    finalAlign "right" [DevCall.setAlign "left", DevCall.text "Hello\n", DevCall.cut,
      DevCall.text "Hello\n", DevCall.cut, DevCall.setAlign "left"] = "left" ∧
    finalAlign "left" [DevCall.setAlign "center"] = "center" := by
  constructor
  · exact C2_amended_alignment_reset.1 devReady "left" samplePayload _ "right" rfl
  · exact C2_amended_alignment_reset.2 devTextFails "left" centerPayload
      (.deviceError "connection reset") _ "left" rfl rfl

/-- C3 counterexample: a device whose `text(...)` call raises makes the
`/print/` handler let the exception escape (`print_text` has no
try/except), refuting the claim that no device-call exception ever
propagates uncaught out of a handler. -/
theorem C3_counterexample :
    (print_text devTextFails "left" samplePayload).1.isUncaught = true := rfl

/-- C3 (amended): only the designated errors are caught.  A barcode
encoding error never escapes `print_barcode` and an image width/size error
never escapes `print_image` (they become structured 400 bodies), but any
exception raised by a device call in `print_text` or `cut_paper`, and any
image decoding failure in `print_image`, propagates uncaught out of the
handler. -/
theorem C3_amended_catch_policy :
    (∀ (d : Device) (b : Barcode) (e : DevErr) (tr : Trace),
      print_barcode d b = (.uncaught e, tr) → e.isBarcodeError = false) ∧
    (∀ (d : Device) (f : UploadFile) (s : ImageSettings) (e : DevErr) (tr : Trace)
        (dec : Bool),
      print_image d f s = (.uncaught e, tr, dec) → e.isImageError = false) ∧
    (∀ (d : Device) (envAlign : String) (p : Payload) (e : DevErr) (tr : Trace),
      d.ready = true →
      d.onCall [] (.setAlign p.alignment.value) = none →
      copiesLoop d (copyEmit p) p.cut p.copies.toNat
          [.setAlign p.alignment.value] = .error (e, tr) →
      print_text d envAlign p = (.uncaught e, tr)) ∧
    (∀ (d : Device) (e : DevErr),
      d.ready = true → d.onCall [] DevCall.cut = some e →
      cut_paper d = (.uncaught e, [])) ∧
    (∀ (d : Device) (f : UploadFile) (s : ImageSettings) (m : String),
      d.ready = true → f.present = true →
      acceptedImageFormats.contains f.content_type = true →
      f.decodeFailure = some m →
      print_image d f s = (.uncaught (.decodeFailure m), [], true)) := by
  refine ⟨?_, ?_, ?_, ?_, ?_⟩
  · intro d b e tr h
    cases hready : d.ready with
    | false => simp [print_barcode, check_printer_initialized, hready] at h
    | true =>
      rcases hL : copiesLoop d (barcodeCall b) b.cut b.copies.toNat [] with ⟨e1, tr1⟩ | tr1
      · cases hbe : e1.isBarcodeError with
        | true =>
          simp [print_barcode, check_printer_initialized, hready, hL, hbe] at h
        | false =>
          simp [print_barcode, check_printer_initialized, hready, hL, hbe] at h
          rw [← h.1]
          exact hbe
      · simp [print_barcode, check_printer_initialized, hready, hL] at h
  · intro d f s e tr dec h
    cases hready : d.ready with
    | false => simp [print_image, check_printer_initialized, hready] at h
    | true =>
      cases hp : f.present with
      | false => simp [print_image, check_printer_initialized, hready, hp] at h
      | true =>
        by_cases hmem : f.content_type ∈ acceptedImageFormats
        · rcases hdec : f.decodeFailure with _ | m
          · rcases hL : copiesLoop d (imageCall s) s.cut s.copies.toNat []
                with ⟨e1, tr1⟩ | tr1
            · cases hie : e1.isImageError with
              | true =>
                simp [print_image, check_printer_initialized, hready, hp, hmem,
                  hdec, hL, hie] at h
              | false =>
                simp [print_image, check_printer_initialized, hready, hp, hmem,
                  hdec, hL, hie] at h
                rw [← h.1]
                exact hie
            · simp [print_image, check_printer_initialized, hready, hp, hmem,
                hdec, hL] at h
          · simp [print_image, check_printer_initialized, hready, hp, hmem, hdec] at h
            rw [← h.1]
            rfl
        · simp [print_image, check_printer_initialized, hready, hp, hmem] at h
  · intro d envAlign p e tr hready h0 hL
    simp [print_text, check_printer_initialized, hready, attemptCall, h0, hL]
  · intro d e hready hcuterr
    simp [cut_paper, check_printer_initialized, hready, attemptCall, hcuterr]
  · intro d f s m hready hp hct hdec
    have hmem : f.content_type ∈ acceptedImageFormats := by simpa using hct
    simp [print_image, check_printer_initialized, hready, hp, hmem, hdec]

/-- C3 witness: concrete runs of all five parts — a non-barcode error
escaping `print_barcode`'s catch test, a decoding failure that is not an
image width/size error, a text-call exception escaping `print_text`, a cut
exception escaping `cut_paper`, and a decoding failure escaping
`print_image`. -/
theorem C3_witness :
    DevErr.isBarcodeError (.deviceError "socket closed") = false ∧
    DevErr.isImageError (.decodeFailure "cannot identify image file") = false ∧
    print_text devTextFails "left" centerPayload =
      (.uncaught (.deviceError "connection reset"), [DevCall.setAlign "center"]) ∧
    cut_paper devCutFails = (.uncaught (.deviceError "cutter jam"), []) ∧
    print_image devReady badBytesFile sampleImageSettings =
      (.uncaught (.decodeFailure "cannot identify image file"), [], true) := by
  refine ⟨?_, ?_, ?_, ?_, ?_⟩
  · exact C3_amended_catch_policy.1 devBarcodeOther sampleBarcode
      (.deviceError "socket closed") [] rfl
  · exact C3_amended_catch_policy.2.1 devReady badBytesFile sampleImageSettings
      (.decodeFailure "cannot identify image file") [] true rfl
  · exact C3_amended_catch_policy.2.2.1 devTextFails "left" centerPayload
      (.deviceError "connection reset") [DevCall.setAlign "center"] rfl rfl rfl
  · exact C3_amended_catch_policy.2.2.2.1 devCutFails (.deviceError "cutter jam")
      rfl rfl
  · exact C3_amended_catch_policy.2.2.2.2 devReady badBytesFile sampleImageSettings
      "cannot identify image file" rfl rfl (by decide) rfl
